import Mathlib

/-!
Shallow embedding of the PyNN backend adapters:
  * src/neuron2/simulator.py — simulator state, run/reset lifecycle,
    recording, and the `single_connect` wiring primitive;
  * src/nest/nineml.py — 9ML cell-type construction for NEST.

Times, weights and delays are embedded as rationals; Python `None` as
`Option.none`; raised exceptions as `Except.error` of a `PyError`.
-/

set_option autoImplicit false

namespace PyNN

/-- Python exceptions raised (or propagated) by the embedded code. -/
inductive PyError where
  | valueError (msg : String)
  | connectionError (msg : String)
  | configurationError (msg : String)
  | assertionError (msg : String)
  | keyError (msg : String)
  | attributeError (msg : String)
  | indexError (msg : String)
  | unboundLocalError (msg : String)
  deriving DecidableEq, Repr

/-- Decidable equality of embedded results, so that concrete runs of the
embedded code can be checked by `decide`. -/
instance {ε α : Type} [DecidableEq ε] [DecidableEq α] : DecidableEq (Except ε α) :=
  fun a b =>
    match a, b with
    | Except.ok x, Except.ok y =>
      if h : x = y then Decidable.isTrue (by rw [h])
      else Decidable.isFalse (by intro hc; cases hc; exact h rfl)
    | Except.error x, Except.error y =>
      if h : x = y then Decidable.isTrue (by rw [h])
      else Decidable.isFalse (by intro hc; cases hc; exact h rfl)
    | Except.ok _, Except.error _ => Decidable.isFalse (by intro hc; cases hc)
    | Except.error _, Except.ok _ => Decidable.isFalse (by intro hc; cases hc)

/-- Simulator global state (class `_State`, src/neuron2/simulator.py lines 130-148).
`t`, `dt`, `tstop` and `min_delay` are proxied hoc globals, embedded as plain
rational fields; `num_processes` and `mpi_rank` are read from the engine's
parallel context at construction. -/
structure _State where
  gid_counter : ℕ
  running : Bool
  initialized : Bool
  t : ℚ
  dt : ℚ
  tstop : ℚ
  min_delay : ℚ
  num_processes : ℕ
  mpi_rank : ℕ
  deriving DecidableEq, Repr

/-- `_State.__init__` (lines 133-143): gid counter 0, flags clear, hoc
`min_delay = 0` and `tstop = 0`; process count and rank come from the engine
parallel context and are inputs here, as is the engine's initial `dt`. -/
def init_state (num_processes mpi_rank : ℕ) (dt : ℚ) : _State :=
  { gid_counter := 0, running := false, initialized := false,
    t := 0, dt := dt, tstop := 0, min_delay := 0,
    num_processes := num_processes, mpi_rank := mpi_rank }

/-- `reset()` (src/neuron2/simulator.py lines 155-158). -/
def reset (s : _State) : _State :=
  { s with running := false, t := 0, tstop := 0 }

/-- `run(simtime)` (src/neuron2/simulator.py lines 160-173).
`local_minimum_delay` is the value the engine returns from
`parallel_context.set_maxstep(10)`; `parallel_context.psolve(state.tstop)` is
modelled as the engine integrating up to `tstop`, i.e. `t := tstop`.  The
`assert` on line 168 becomes an `AssertionError` result.  Note that line 170
assigns `state.tstop = simtime`: it does not accumulate. -/
def run (local_minimum_delay simtime : ℚ) (s : _State) :
    Except PyError (_State × ℚ) :=
  let advance : _State → Except PyError (_State × ℚ) := fun s1 =>
    let s2 := { s1 with tstop := simtime }
    let s3 := { s2 with t := s2.tstop }
    Except.ok (s3, s3.t)
  if s.running = false then
    let s1 := { s with running := true, tstop := 0 }
    if 1 < s1.num_processes ∧ local_minimum_delay < s1.min_delay then
      Except.error (PyError.assertionError
        "There are connections with delays shorter than the minimum delay")
    else
      advance s1
  else
    advance s

end PyNN

namespace PyNN

/-- C1: the spec claims `run` accumulates stop time across calls within one
running session, so that `reset()` then `run(50)` then `run(30)` leaves stop
time 80.  The code assigns `state.tstop = simtime` (line 170), so the stop
time after the second call is 30, not 80 — evaluating the embedded code on the
spec's own scenario exhibits the divergence. -/
theorem C1_tstop_not_accumulated :
    (do
      let r1 ← run 1 50 (reset (init_state 1 0 (1/40)))
      let r2 ← run 1 30 r1.1
      Except.ok r2.1.tstop : Except PyError ℚ) = Except.ok 30 ∧ (30 : ℚ) ≠ 80 := by
  refine ⟨rfl, by norm_num⟩

/-- C5: on a first `run` after construction or reset, when more than one
process is active and the engine-computed minimum usable step is smaller than
the configured minimum delay, `run` fails with an assertion-style error; on a
single process no such check is performed and `run` succeeds. -/
theorem C5_first_run_min_delay_check (s : _State) (lmd simtime : ℚ)
    (hrun : s.running = false) :
    (1 < s.num_processes → lmd < s.min_delay →
      run lmd simtime s = Except.error (PyError.assertionError
        "There are connections with delays shorter than the minimum delay")) ∧
    (s.num_processes = 1 → ∃ r, run lmd simtime s = Except.ok r) := by
  constructor
  · intro hnp hlt
    simp only [run, if_pos hrun]
    rw [if_pos ⟨hnp, hlt⟩]
  · intro hnp
    simp only [run, if_pos hrun]
    rw [if_neg]
    · exact ⟨_, rfl⟩
    · rintro ⟨h1, -⟩
      rw [hnp] at h1
      exact lt_irrefl 1 h1

/-- The target cell identifier passed to `single_connect`.  `is_id_mixin`
models `isinstance(target, common.IDMixin)`; `cellclass_name` is
`target.cellclass.__name__`; `synapses` lists the synapse attribute names of
`target._cell` that `getattr` can resolve. -/
structure Target where
  is_id_mixin : Bool
  cellclass_name : String
  synapses : List String
  deriving DecidableEq, Repr

/-- The native connection handle after `nc.weight[0] = weight` and
`nc.delay = delay` (src/neuron2/simulator.py lines 224-226); `synapse` records
which synapse object of the target cell `gid_connect` attached to. -/
structure NetCon where
  weight : ℚ
  delay : ℚ
  synapse : String
  deriving DecidableEq, Repr

/-- `Connection` (src/neuron2/simulator.py lines 194-199). -/
structure Connection where
  pre : Int
  post : Target
  nc : NetCon
  deriving DecidableEq, Repr

/-- Python 2 truth value of `weight >= 0` where `weight` may be `None`:
in Python 2, `None` compares smaller than every number, so `None >= 0`
is false. -/
def py2_weight_ge_zero : Option ℚ → Bool
  | none => false
  | some w => decide (0 ≤ w)

/-- Does the second character list start with the first? -/
def char_list_starts_with : List Char → List Char → Bool
  | [], _ => true
  | _ :: _, [] => false
  | p :: ps, c :: cs => (p == c) && char_list_starts_with ps cs

/-- Does the second character list contain the first as a contiguous run? -/
def char_list_contains (sub : List Char) : List Char → Bool
  | [] => char_list_starts_with sub []
  | c :: cs => char_list_starts_with sub (c :: cs) || char_list_contains sub cs

/-- Python substring containment `sub in s`. -/
def py_str_in (sub s : String) : Bool :=
  char_list_contains sub.toList s.toList

/-- Lines 211-212: `synapse_type = weight>=0 and 'excitatory' or 'inhibitory'`
when `synapse_type is None` (the `and`/`or` idiom picks one of the two nonempty
strings); an explicit synapse type is kept as given. -/
def resolve_synapse_type (synapse_type : Option String) (weight : Option ℚ) : String :=
  match synapse_type with
  | some st => st
  | none => if py2_weight_ge_zero weight then "excitatory" else "inhibitory"

/-- Lines 215-218: conductance-based targets (class name containing `"cond"`)
force the weight non-negative; otherwise an inhibitory synapse with a positive
weight has it negated (`weight *= -1`). -/
def corrected_weight (target : Target) (st : String) (w : ℚ) : ℚ :=
  if py_str_in "cond" target.cellclass_name then |w|
  else if st = "inhibitory" ∧ 0 < w then -w
  else w

/-- `single_connect(source, target, weight, delay, synapse_type)`
(src/neuron2/simulator.py lines 201-227).  `DEFAULT_WEIGHT` — modelled from
the spec: the framework-wide constant `common.DEFAULT_WEIGHT` lives in
`pyNN/common.py`, which is not under src/, and the spec only says "weight
defaults to a framework-wide constant", so its value is an input here.
Sources are embedded as Python ints, so the `isinstance(source, int)` part of
the guard on line 206 always holds; `parallel_context.gid_connect` is the
engine call, whose handle is recorded as a `NetCon` with the resolved weight,
delay and synapse attribute name. -/
def single_connect (DEFAULT_WEIGHT : ℚ) (s : _State) (source : Int)
    (target : Target) (weight delay : Option ℚ) (synapse_type : Option String) :
    Except PyError Connection :=
  if source > (s.gid_counter : Int) ∨ source < 0 then
    Except.error (PyError.connectionError "Invalid source ID")
  else if target.is_id_mixin = false then
    Except.error (PyError.connectionError "Invalid target ID")
  else
    let st := resolve_synapse_type synapse_type weight
    let w := corrected_weight target st (weight.getD DEFAULT_WEIGHT)
    match delay with
    | some d =>
      if d < s.min_delay then
        Except.error (PyError.connectionError "delay is too small")
      else if target.synapses.contains st then
        Except.ok { pre := source, post := target,
                    nc := { weight := w, delay := d, synapse := st } }
      else
        Except.error (PyError.attributeError st)
    | none =>
      if target.synapses.contains st then
        Except.ok { pre := source, post := target,
                    nc := { weight := w, delay := s.min_delay, synapse := st } }
      else
        Except.error (PyError.attributeError st)

/-- Inversion: a successful `single_connect` returns the record built from the
resolved synapse type, the sign-corrected weight and the defaulted delay. -/
theorem single_connect_ok (DW : ℚ) (s : _State) (source : Int) (target : Target)
    (weight delay : Option ℚ) (synapse_type : Option String) (c : Connection)
    (h : single_connect DW s source target weight delay synapse_type = Except.ok c) :
    c.pre = source ∧ c.post = target ∧
    c.nc.synapse = resolve_synapse_type synapse_type weight ∧
    c.nc.weight = corrected_weight target (resolve_synapse_type synapse_type weight)
      (weight.getD DW) ∧
    c.nc.delay = delay.getD s.min_delay := by
  simp only [single_connect] at h
  split at h
  · exact absurd h (by simp)
  · split at h
    · exact absurd h (by simp)
    · split at h
      · split at h
        · exact absurd h (by simp)
        · split at h
          · cases h
            exact ⟨rfl, rfl, rfl, rfl, rfl⟩
          · exact absurd h (by simp)
      · split at h
        · cases h
          exact ⟨rfl, rfl, rfl, rfl, rfl⟩
        · exact absurd h (by simp)

/-- A two-process state with minimum delay 0.1, before any `run`. -/
def two_proc_state : _State :=
  { init_state 2 0 (1/40) with min_delay := 1/10 }

/-- Witness for C5: with minimum delay 0.1, two processes, and an
engine-reported minimum delay 0.05, the first `run` raises the assertion
error; the same call on one process succeeds. -/
theorem C5_witness :
    run (1/20) 50 two_proc_state = Except.error (PyError.assertionError
      "There are connections with delays shorter than the minimum delay") ∧
    ∃ r, run (1/20) 50 (init_state 1 0 (1/40)) = Except.ok r := by
  constructor
  · exact (C5_first_run_min_delay_check two_proc_state (1/20) 50 rfl).1
      (by norm_num [two_proc_state, init_state]) (by norm_num [two_proc_state, init_state])
  · exact (C5_first_run_min_delay_check (init_state 1 0 (1/40)) (1/20) 50 rfl).2 rfl

/-- C4: with a valid source and target, an explicit delay strictly below the
configured minimum delay makes `single_connect` fail with `ConnectionError`
(so no `Connection` record is produced), while an unspecified delay resolves
to the configured minimum delay on every successful call. -/
theorem C4_delay_check (DW : ℚ) (s : _State) (source : Int) (target : Target)
    (weight : Option ℚ) (synapse_type : Option String)
    (hsrc : ¬(source > (s.gid_counter : Int) ∨ source < 0))
    (htgt : target.is_id_mixin = true) :
    (∀ d : ℚ, d < s.min_delay →
      single_connect DW s source target weight (some d) synapse_type =
        Except.error (PyError.connectionError "delay is too small")) ∧
    (∀ c : Connection,
      single_connect DW s source target weight none synapse_type = Except.ok c →
        c.nc.delay = s.min_delay) := by
  constructor
  · intro d hd
    simp only [single_connect, if_neg hsrc]
    rw [if_neg (by simp [htgt]), if_pos hd]
  · intro c h
    have hinv := single_connect_ok DW s source target weight none synapse_type c h
    simpa using hinv.2.2.2.2

/-- State with gid counter 5 and minimum delay 1, one process. -/
def c4_state : _State :=
  { init_state 1 0 (1/40) with gid_counter := 5, min_delay := 1 }

/-- A current-based target cell exposing the standard synapse attributes. -/
def curr_target : Target :=
  { is_id_mixin := true, cellclass_name := "IF_curr_exp",
    synapses := ["excitatory", "inhibitory"] }

/-- The connection produced by the successful call in the C4 witness. -/
def c4_conn : Connection :=
  { pre := 3, post := curr_target,
    nc := { weight := 2, delay := 1, synapse := "excitatory" } }

/-- Witness for C4: with minimum delay 1, the explicit delay 0 is rejected
with `ConnectionError`, and the same call with delay unspecified succeeds
with delay equal to the minimum delay. -/
theorem C4_witness :
    single_connect 0 c4_state 3 curr_target (some 2) (some 0) none =
      Except.error (PyError.connectionError "delay is too small") ∧
    c4_conn.nc.delay = c4_state.min_delay := by
  constructor
  · exact (C4_delay_check 0 c4_state 3 curr_target (some 2) none (by decide) rfl).1
      0 (by norm_num [c4_state, init_state])
  · exact (C4_delay_check 0 c4_state 3 curr_target (some 2) none (by decide) rfl).2
      c4_conn (by decide)

/-- A state with gid counter 0 and minimum delay 0, one process. -/
def c6_state : _State := init_state 1 0 (1/40)

/-- C6 counterexample: on a current-based target with explicit synapse type
`"inhibitory"` and explicit weight 0, the stored weight is 0, which is not
negative — the guard on line 217 only negates strictly positive weights. -/
theorem C6_counterexample :
    (single_connect 0 c6_state 0 curr_target (some 0) none (some "inhibitory")).map
      (fun c => c.nc.weight) = Except.ok 0 ∧ ¬((0 : ℚ) < 0) :=
  ⟨rfl, by norm_num⟩

/-- C6 (amended): on every successful `single_connect`, a conductance-based
target stores a non-negative weight, and a current-based target with resolved
synapse type `"inhibitory"` stores a non-positive weight (negative whenever
the weight being stored is nonzero). -/
theorem C6_weight_sign (DW : ℚ) (s : _State) (source : Int) (target : Target)
    (weight delay : Option ℚ) (synapse_type : Option String) (c : Connection)
    (h : single_connect DW s source target weight delay synapse_type = Except.ok c) :
    (py_str_in "cond" target.cellclass_name = true → 0 ≤ c.nc.weight) ∧
    (py_str_in "cond" target.cellclass_name = false → c.nc.synapse = "inhibitory" →
      c.nc.weight ≤ 0) := by
  obtain ⟨-, -, hsyn, hw, -⟩ :=
    single_connect_ok DW s source target weight delay synapse_type c h
  constructor
  · intro hcond
    rw [hw]
    simp only [corrected_weight]
    rw [if_pos hcond]
    exact abs_nonneg _
  · intro hcond hinh
    rw [hsyn] at hinh
    rw [hw]
    simp only [corrected_weight]
    rw [if_neg (by simp [hcond])]
    by_cases hpos : 0 < weight.getD DW
    · rw [if_pos ⟨hinh, hpos⟩]
      linarith
    · rw [if_neg (fun hh => hpos hh.2)]
      exact le_of_not_lt hpos

/-- A conductance-based target cell exposing the standard synapse attributes. -/
def cond_target : Target :=
  { is_id_mixin := true, cellclass_name := "IF_cond_exp",
    synapses := ["excitatory", "inhibitory"] }

/-- Connection from wiring weight -3 onto the conductance-based target. -/
def c6_conn_cond : Connection :=
  { pre := 0, post := cond_target,
    nc := { weight := 3, delay := 0, synapse := "inhibitory" } }

/-- Connection from wiring weight -3 onto the current-based target. -/
def c6_conn_curr : Connection :=
  { pre := 0, post := curr_target,
    nc := { weight := -3, delay := 0, synapse := "inhibitory" } }

/-- Witness for C6 (amended): wiring weight -3 onto a conductance-based target
stores 3 ≥ 0; wiring it onto a current-based target as inhibitory stores -3 ≤ 0. -/
theorem C6_witness :
    0 ≤ c6_conn_cond.nc.weight ∧ c6_conn_curr.nc.weight ≤ 0 :=
  ⟨(C6_weight_sign 0 c6_state 0 cond_target (some (-3)) none none c6_conn_cond
      (by decide)).1 (by decide),
   (C6_weight_sign 0 c6_state 0 curr_target (some (-3)) none none c6_conn_curr
      (by decide)).2 (by decide) rfl⟩

/-- C7: with synapse type unspecified and a numeric weight `w`, every
successful `single_connect` resolves the synapse type to `"excitatory"` when
`w ≥ 0` and to `"inhibitory"` when `w < 0`. -/
theorem C7_default_synapse_type (DW : ℚ) (s : _State) (source : Int)
    (target : Target) (w : ℚ) (delay : Option ℚ) (c : Connection)
    (h : single_connect DW s source target (some w) delay none = Except.ok c) :
    (0 ≤ w → c.nc.synapse = "excitatory") ∧ (w < 0 → c.nc.synapse = "inhibitory") := by
  obtain ⟨-, -, hsyn, -, -⟩ :=
    single_connect_ok DW s source target (some w) delay none c h
  constructor
  · intro hw
    rw [hsyn]
    simp [resolve_synapse_type, py2_weight_ge_zero, hw]
  · intro hw
    rw [hsyn]
    simp [resolve_synapse_type, py2_weight_ge_zero, not_le.mpr hw]

/-- Connection from wiring weight 5 with unspecified synapse type. -/
def c7_conn : Connection :=
  { pre := 0, post := curr_target,
    nc := { weight := 5, delay := 0, synapse := "excitatory" } }

/-- Witness for C7: weight 5 with unspecified synapse type wires through the
excitatory synapse. -/
theorem C7_witness : c7_conn.nc.synapse = "excitatory" :=
  (C7_default_synapse_type 0 c6_state 0 curr_target 5 none c7_conn (by decide)).1
    (by norm_num)

/-- C10: with both weight and synapse type unspecified, line 212 evaluates the
Python 2 comparison `None >= 0`, which is false, so the resolved synapse type
is `"inhibitory"`; on a current-based target the stored weight is then the
negated default weight (for any non-negative framework default). -/
theorem C10_none_weight_inhibitory (DW : ℚ) (s : _State) (source : Int)
    (target : Target) (delay : Option ℚ) (c : Connection)
    (hdw : 0 ≤ DW)
    (hcur : py_str_in "cond" target.cellclass_name = false)
    (h : single_connect DW s source target none delay none = Except.ok c) :
    c.nc.synapse = "inhibitory" ∧ c.nc.weight = -DW := by
  obtain ⟨-, -, hsyn, hw, -⟩ :=
    single_connect_ok DW s source target none delay none c h
  have hst : resolve_synapse_type none (none : Option ℚ) = "inhibitory" := rfl
  refine ⟨by rw [hsyn, hst], ?_⟩
  rw [hw, hst]
  rcases eq_or_lt_of_le hdw with heq | hpos
  · rw [← heq]
    simp [corrected_weight, hcur]
  · simp [corrected_weight, hcur, hpos]

/-- `Recorder` (src/neuron2/simulator.py lines 26-44): the recording-variable
name (`self.variable`, called `var` here because `variable` is a Lean
keyword), the optional owning population's set of local ids
(`population._local_ids`), the output destination, and the growing set of
recorded ids (`self.recorded`, a Python set). -/
structure Recorder where
  var : String
  population : Option (Finset ℕ)
  filename : Option String
  recorded : Finset ℕ
  deriving DecidableEq

/-- `Recorder.record(ids)` (src/neuron2/simulator.py lines 47-63).  Returns
the updated recorder together with the set of ids whose low-level trace this
call enabled: the loop over `new_ids` calls `id._cell.record(1)` for the
`spikes` variable and `id._cell.record_v(1)` for `v`; other variables enable
nothing. -/
def Recorder.record (r : Recorder) (ids : Finset ℕ) : Recorder × Finset ℕ :=
  let ids := match r.population with
    | some local_ids => ids.filter (fun i => i ∈ local_ids)
    | none => ids
  let new_ids := ids \ r.recorded
  ({ r with recorded := r.recorded ∪ ids },
   if r.var = "spikes" ∨ r.var = "v" then new_ids else ∅)

/-- The ids a `record` call enables are disjoint from the previously tracked set. -/
theorem record_enabled_fresh (r : Recorder) (ids : Finset ℕ) :
    Disjoint (r.record ids).2 r.recorded := by
  simp only [Recorder.record]
  split_ifs
  · exact Finset.sdiff_disjoint
  · exact Finset.disjoint_empty_left _

/-- The ids a `record` call enables are tracked afterwards. -/
theorem record_enabled_tracked (r : Recorder) (ids : Finset ℕ) :
    (r.record ids).2 ⊆ (r.record ids).1.recorded := by
  simp only [Recorder.record]
  split_ifs
  · exact Finset.sdiff_subset.trans Finset.subset_union_right
  · exact Finset.empty_subset _

/-- The tracked set only grows under `record`. -/
theorem record_recorded_mono (r : Recorder) (ids : Finset ℕ) :
    r.recorded ⊆ (r.record ids).1.recorded := by
  simp only [Recorder.record]
  exact Finset.subset_union_left

/-- C8: across two `record` calls with arbitrary (in particular overlapping)
id sets, each call enables traces only for ids not already tracked, the two
calls never enable the same id twice, and the tracked set grows monotonically. -/
theorem C8_record_idempotent_growth (r : Recorder) (ids1 ids2 : Finset ℕ) :
    Disjoint (r.record ids1).2 r.recorded ∧
    Disjoint ((r.record ids1).1.record ids2).2 (r.record ids1).1.recorded ∧
    Disjoint (r.record ids1).2 ((r.record ids1).1.record ids2).2 ∧
    r.recorded ⊆ (r.record ids1).1.recorded ∧
    (r.record ids1).1.recorded ⊆ ((r.record ids1).1.record ids2).1.recorded := by
  refine ⟨record_enabled_fresh r ids1, record_enabled_fresh _ ids2, ?_,
    record_recorded_mono r ids1, record_recorded_mono _ ids2⟩
  exact ((record_enabled_fresh (r.record ids1).1 ids2).symm.mono_left
    (record_enabled_tracked r ids1))

/-- Per-cell recorded traces: `id._cell.spiketimes`, `id._cell.vtrace` and
`id._cell.record_times`, each a numeric array, embedded as rational lists. -/
structure CellData where
  spiketimes : List ℚ
  vtrace : List ℚ
  record_times : List ℚ
  deriving DecidableEq, Repr

/-- `Recorder.get` (src/neuron2/simulator.py lines 65-82): for the `spikes`
variable, one `(time, id)` row per spike with `spikes <= state.t + 1e-9`; for
`v`, one `(time, v, id)` row per sample; for any other variable the Python
body never binds `data` and the `return` raises `UnboundLocalError`.  Rows
are lists of numbers; recorded ids are visited in ascending order (a Python
set has no documented iteration order). -/
def Recorder.get (r : Recorder) (cells : ℕ → CellData) (t : ℚ) :
    Except PyError (List (List ℚ)) :=
  if r.var = "spikes" then
    Except.ok ((r.recorded.sort (· ≤ ·)).flatMap (fun id =>
      ((cells id).spiketimes.filter (fun s => decide (s ≤ t + 1/1000000000))).map
        (fun s => [s, (id : ℚ)])))
  else if r.var = "v" then
    Except.ok ((r.recorded.sort (· ≤ ·)).flatMap (fun id =>
      (((cells id).record_times).zip (cells id).vtrace).map
        (fun p => [p.1, p.2, (id : ℚ)])))
  else
    Except.error (PyError.unboundLocalError "data")

/-- C9: every row a spike recorder returns starts with a time at most the
current simulation time plus the 1e-9 tolerance. -/
theorem C9_spike_rows_time_bounded (r : Recorder) (cells : ℕ → CellData)
    (t : ℚ) (rows : List (List ℚ))
    (hvar : r.var = "spikes")
    (h : r.get cells t = Except.ok rows) :
    ∀ row ∈ rows, ∀ s, row.head? = some s → s ≤ t + 1/1000000000 := by
  rw [Recorder.get, if_pos hvar] at h
  cases h
  intro row hrow s hs
  rcases List.mem_flatMap.mp hrow with ⟨id, -, hmem⟩
  rcases List.mem_map.mp hmem with ⟨sp, hsp, hrow_eq⟩
  rw [← hrow_eq] at hs
  simp only [List.head?_cons, Option.some.injEq] at hs
  rw [← hs]
  exact of_decide_eq_true (List.mem_filter.mp hsp).2

/-- A spike recorder tracking cell 0, with no owning population. -/
def c9_recorder : Recorder :=
  { var := "spikes", population := none, filename := none, recorded := {0} }

/-- Every cell spiked at times 0 and 5. -/
def c9_cells : ℕ → CellData :=
  fun _ => { spiketimes := [0, 5], vtrace := [], record_times := [] }

/-- Witness for C9: at simulation time 1, the recorder returns exactly the
row for the spike at time 0 (the spike at 5 is filtered out), and that time
is within tolerance of the clock. -/
theorem C9_witness : (0 : ℚ) ≤ 1 + 1/1000000000 := by
  refine C9_spike_rows_time_bounded c9_recorder c9_cells 1 [[0, 0]] rfl ?_
    [0, 0] (by simp) 0 rfl
  show c9_recorder.get c9_cells 1 = Except.ok [[0, 0]]
  rw [Recorder.get]
  norm_num [c9_recorder, c9_cells, Finset.sort_singleton, List.filter]

/-- Connection from wiring with weight and synapse type both unspecified,
framework default weight 1, onto the current-based target. -/
def c10_conn : Connection :=
  { pre := 0, post := curr_target,
    nc := { weight := -1, delay := 0, synapse := "inhibitory" } }

/-- Witness for C10: with default weight 1 and both weight and synapse type
unspecified, the current-based target gets an inhibitory connection of
weight -1. -/
theorem C10_witness : c10_conn.nc.synapse = "inhibitory" ∧ c10_conn.nc.weight = -1 :=
  C10_none_weight_inhibitory 1 c6_state 0 curr_target none c10_conn
    (by norm_num) (by decide) (by decide)

/-- Direction of a 9ML event port (`mode` argument of `filter_ports`). -/
inductive PortMode where
  | recv
  | send
  | reduce
  deriving DecidableEq, Repr

/-- A 9ML event port (`nineml.EventPort`): a symbol and a direction. -/
structure EventPort where
  symbol : String
  mode : PortMode
  deriving DecidableEq, Repr

/-- The slice of a 9ML sub-component inspected by the builder: its event
ports. -/
structure Component where
  event_ports : List EventPort
  deriving DecidableEq, Repr

/-- `syn_component.filter_ports(cls=nineml.EventPort, mode=m)`: the event
ports with the given direction. -/
def Component.filter_ports (c : Component) (mode : PortMode) : List EventPort :=
  c.event_ports.filter (fun p => p.mode == mode)

/-- The composite 9ML model: its named sub-models (`nineml_model.subnodes`). -/
structure NineMLModel where
  subnodes : List (String × Component)
  deriving DecidableEq, Repr

/-- Dictionary lookup `nineml_model.subnodes[ns]`. -/
def NineMLModel.subnode (m : NineMLModel) (ns : String) : Option Component :=
  (m.subnodes.find? (fun p => p.1 == ns)).map (fun p => p.2)

/-- A synapse component reference (`CoBaSyn`): a namespace and a weight
connector name (the Python attribute `namespace` is a Lean keyword, embedded
as `ns`). -/
structure CoBaSyn where
  ns : String
  weight_connector : String
  deriving DecidableEq, Repr

/-- The synapse-port resolution loop of `_nest_build_nineml_celltype.__new__`
(src/nest/nineml.py lines 87-97): for each synapse component, look up its
sub-model and its event-receiving ports; `len(recv_event_ports)!=1` raises
`ValueError` (line 96), a missing namespace raises `KeyError` (line 92);
otherwise `namespace + '_' + symbol` is collected. -/
def resolve_synapse_ports (m : NineMLModel) :
    List CoBaSyn → Except PyError (List String)
  | [] => Except.ok []
  | syn :: rest =>
    match m.subnode syn.ns with
    | none => Except.error (PyError.keyError syn.ns)
    | some comp =>
      match comp.filter_ports PortMode.recv with
      | [p] => (resolve_synapse_ports m rest).map
          (fun ps => (syn.ns ++ "_" ++ p.symbol) :: ps)
      | _ => Except.error (PyError.valueError
          "A synapse component has multiple recv ports.  Cannot dis-ambiguate")

/-- A Python value that is either a list of strings or a tuple of strings.
Needed because line 107 of src/nest/nineml.py compares a list with a tuple. -/
inductive PyVal where
  | pylist (items : List String)
  | pytuple (items : List String)
  deriving DecidableEq, Repr

/-- Python equality on such values: lists compare elementwise with lists and
tuples with tuples, but a list is never equal to a tuple. -/
def pyEq : PyVal → PyVal → Bool
  | PyVal.pylist xs, PyVal.pylist ys => xs == ys
  | PyVal.pytuple xs, PyVal.pytuple ys => xs == ys
  | _, _ => false

/-- Line 107: `dct["standard_receptor_type"] = (dct["synapse_types"] ==
('excitatory', 'inhibitory'))`, where `dct["synapse_types"]` is the Python
list built on line 106 and the right-hand side is a tuple. -/
def standard_receptor_type (synapse_components : List CoBaSyn) : Bool :=
  pyEq (PyVal.pylist (synapse_components.map (fun s => s.ns)))
    (PyVal.pytuple ["excitatory", "inhibitory"])

/-- The slice of the externally reduced component the builder reads:
parameter names, state-variable names, analog-port names and the regime map
keys. -/
structure ReducedComponent where
  parameters : List String
  state_variables : List String
  analog_ports : List String
  regime_map : List String
  deriving DecidableEq, Repr

/-- The class dictionary carried by a generated `NineMLCellType` subclass
(src/nest/nineml.py lines 101-120). -/
structure GeneratedCellType where
  combined_model : ReducedComponent
  default_parameters : List (String × ℚ)
  default_initial_values : List (String × ℚ)
  synapse_ports : List String
  synapse_types : List String
  standard_receptor_type : Bool
  injectable : Bool
  conductance_based : Bool
  model_name : String
  nest_model : String
  recordable : List String
  weight_variables : List (String × String)
  initial_regime : String
  deriving DecidableEq, Repr

/-- `nineml_celltype_from_model(name, nineml_model, synapse_components)`
followed by `_nest_build_nineml_celltype.__new__` (src/nest/nineml.py lines
50-138).  `models.reduce_to_single_component` and `backsub_all` belong to the
external 9ML library, so the reduced component is an input here;
`regime_map.keys()[0]` on an empty regime map raises `IndexError`; the
`NestFileBuilder` compile/install side effects are external and unmodelled. -/
def nineml_celltype_from_model (name : String) (nineml_model : NineMLModel)
    (synapse_components : List CoBaSyn) (reduced_component : ReducedComponent) :
    Except PyError GeneratedCellType :=
  match resolve_synapse_ports nineml_model synapse_components with
  | Except.error e => Except.error e
  | Except.ok ports =>
    match reduced_component.regime_map with
    | [] => Except.error (PyError.indexError "regime_map")
    | regime0 :: _ =>
      Except.ok {
        combined_model := reduced_component
        default_parameters := reduced_component.parameters.map (fun n => (n, 1))
        default_initial_values :=
          reduced_component.state_variables.map (fun n => (n, 0))
        synapse_ports := ports
        synapse_types := synapse_components.map (fun s => s.ns)
        standard_receptor_type := standard_receptor_type synapse_components
        injectable := true
        conductance_based := true
        model_name := name
        nest_model := name
        recordable := reduced_component.analog_ports ++ ["spikes", "regime"]
        weight_variables := synapse_components.map
          (fun s => (s.ns, s.ns ++ "_" ++ s.weight_connector))
        initial_regime := regime0 }

/-- A reduced component with one parameter, one state variable, one analog
port and one regime. -/
def demo_reduced : ReducedComponent :=
  { parameters := ["tau"], state_variables := ["V"],
    analog_ports := ["V"], regime_map := ["default"] }

/-- A synapse sub-component exposing two receive event ports. -/
def two_recv_component : Component :=
  { event_ports := [{ symbol := "spike_a", mode := PortMode.recv },
                    { symbol := "spike_b", mode := PortMode.recv }] }

/-- A synapse sub-component exposing no receive event port. -/
def zero_recv_component : Component :=
  { event_ports := [{ symbol := "spike_out", mode := PortMode.send }] }

/-- A well-formed synapse sub-component with exactly one receive event port. -/
def one_recv_component : Component :=
  { event_ports := [{ symbol := "spike_in", mode := PortMode.recv }] }

/-- Reference to the excitatory synapse sub-component. -/
def exc_syn : CoBaSyn := { ns := "excitatory", weight_connector := "q" }

/-- Reference to the inhibitory synapse sub-component. -/
def inh_syn : CoBaSyn := { ns := "inhibitory", weight_connector := "q" }

/-- A model whose excitatory synapse sub-component has two receive ports. -/
def two_recv_model : NineMLModel :=
  { subnodes := [("excitatory", two_recv_component)] }

/-- A model whose excitatory synapse sub-component has no receive port. -/
def zero_recv_model : NineMLModel :=
  { subnodes := [("excitatory", zero_recv_component)] }

/-- A model with well-formed excitatory and inhibitory synapse sub-components. -/
def good_model : NineMLModel :=
  { subnodes := [("excitatory", one_recv_component),
                 ("inhibitory", one_recv_component)] }

/-- C2 counterexample: a synapse sub-component with two receive-capable event
ports makes cell-type construction fail with `ValueError` (line 96), not with
a `ConfigurationError` as the claim states. -/
theorem C2_counterexample :
    nineml_celltype_from_model "cell" two_recv_model [exc_syn] demo_reduced =
      Except.error (PyError.valueError
        "A synapse component has multiple recv ports.  Cannot dis-ambiguate") := rfl

/-- C2 (amended): whenever every synapse namespace resolves to a sub-model
and some synapse sub-component exposes a number of receive-capable event
ports different from one, cell-type construction fails with the `ValueError`
of line 96. -/
theorem C2_bad_recv_ports_value_error (m : NineMLModel) (name : String)
    (rc : ReducedComponent) (syns : List CoBaSyn)
    (hres : ∀ syn ∈ syns, (m.subnode syn.ns).isSome)
    (hbad : ∃ syn ∈ syns, ∀ c, m.subnode syn.ns = some c →
      (c.filter_ports PortMode.recv).length ≠ 1) :
    nineml_celltype_from_model name m syns rc =
      Except.error (PyError.valueError
        "A synapse component has multiple recv ports.  Cannot dis-ambiguate") := by
  have key : resolve_synapse_ports m syns =
      Except.error (PyError.valueError
        "A synapse component has multiple recv ports.  Cannot dis-ambiguate") := by
    induction syns with
    | nil => exact absurd hbad (by simp)
    | cons syn rest ih =>
      obtain ⟨c, hc⟩ := Option.isSome_iff_exists.mp (hres syn (by simp))
      rcases hbad with ⟨syn2, hmem, hsyn2⟩
      rcases List.mem_cons.mp hmem with heq | htail
      · subst heq
        have hlen := hsyn2 c hc
        rcases hfp : c.filter_ports PortMode.recv with - | ⟨p, ps⟩
        · simp only [resolve_synapse_ports, hc, hfp]
        · rcases ps with - | ⟨q, qs⟩
          · exact absurd (by rw [hfp]; rfl) hlen
          · simp only [resolve_synapse_ports, hc, hfp]
      · have htl : resolve_synapse_ports m rest =
            Except.error (PyError.valueError
              "A synapse component has multiple recv ports.  Cannot dis-ambiguate") :=
          ih (fun s hs => hres s (List.mem_cons_of_mem _ hs)) ⟨syn2, htail, hsyn2⟩
        rcases hfp : c.filter_ports PortMode.recv with - | ⟨p, ps⟩
        · simp only [resolve_synapse_ports, hc, hfp]
        · rcases ps with - | ⟨q, qs⟩
          · simp only [resolve_synapse_ports, hc, hfp, htl, Except.map]
          · simp only [resolve_synapse_ports, hc, hfp]
  rw [nineml_celltype_from_model, key]

/-- Witness for C2 (amended): the zero-receive-port sub-component also fails
with the `ValueError`. -/
theorem C2_witness :
    nineml_celltype_from_model "cell" zero_recv_model [exc_syn] demo_reduced =
      Except.error (PyError.valueError
        "A synapse component has multiple recv ports.  Cannot dis-ambiguate") :=
  C2_bad_recv_ports_value_error zero_recv_model "cell" demo_reduced [exc_syn]
    (by decide) ⟨exc_syn, by simp, by decide⟩

/-- C3: the spec claims `standard_receptor_type` is true exactly for the
conventional `['excitatory', 'inhibitory']` namespace list.  Line 107
compares that Python list against a tuple, and in Python a list is never
equal to a tuple, so the flag is false for every synapse-component list —
including the conventional pair, where the claim requires it to be true. -/
theorem C3_flag_always_false :
    (∀ syns : List CoBaSyn, standard_receptor_type syns = false) ∧
    (nineml_celltype_from_model "cell" good_model [exc_syn, inh_syn]
        demo_reduced).map (fun ct => ct.standard_receptor_type) =
      Except.ok false :=
  ⟨fun _ => rfl, rfl⟩

end PyNN
